import Mathlib

/-!
Shallow embedding of the scheduler / session / statistics core of the
weibo-crawler repository (src/session_manager.py and
src/statistics_manager.py), together with theorems settling the frozen
claims about its specification.

Modelling conventions:
* wall-clock instants are integers (epoch seconds); the millisecond clock
  used for schedule ids is a natural number (epoch milliseconds);
* SQLite REAL values (duration, efficiency) are rationals;
* ISO-8601 timestamp strings stored in TEXT columns compare exactly like
  the instants they denote (uniform format), so they are modelled by the
  integer instants directly;
* fallible operations return a success flag next to the new state, as the
  source returns False / True and mutates in place.
-/

/- ===================== session_manager.py ===================== -/

/-- Opaque configuration map (the JSON config dict is never inspected by
the code under study). -/
abbrev RunConfig := List (String × String)

/-- The contents of last_session.json, as written by SessionManager.save_session. -/
structure SessionData where
  config : RunConfig
  auto_start_enabled : Bool
  saved_at : Int
  last_run : Option Int
deriving DecidableEq

/-- SessionManager.check_auto_start: returns the stored config only when the
session exists, auto start is enabled, and the last run is absent or at
least one hour (3600 s) in the past. -/
def check_auto_start (session : Option SessionData) (now : Int) : Option RunConfig :=
  match session with
  | none => none
  | some s =>
    if s.auto_start_enabled = false then none
    else
      match s.last_run with
      | some lr => if now - lr < 3600 then none else some s.config
      | none => some s.config

/-- Split a character list at every character satisfying p, keeping empty
pieces (the behaviour of str.split with an explicit separator). -/
def splitByPred (p : Char → Bool) : List Char → List (List Char)
  | [] => [[]]
  | a :: rest =>
    match splitByPred p rest, p a with
    | r, true => [] :: r
    | [], false => [[a]]
    | h :: t, false => (a :: h) :: t

/-- Numeric value of a list of ASCII digits. -/
def digitsVal (l : List Char) : Nat :=
  l.foldl (fun acc c => acc * 10 + (c.toNat - 48)) 0

/-- One field of an HH:MM string as accepted by datetime.strptime with
percent-H / percent-M: one or two ASCII digits whose value is at most
the bound (23 for hours, 59 for minutes). -/
def hmField (l : List Char) (bound : Nat) : Bool :=
  (l.length == 1 || l.length == 2) && l.all Char.isDigit &&
    digitsVal l ≤ bound

/-- Models datetime.strptime(s, "%H:%M") succeeding: exactly one colon,
both sides digit fields in range, no surrounding characters. -/
def strptime_HM (s : String) : Bool :=
  match splitByPred (fun c => c == ':') s.toList with
  | [h, m] => hmField h 23 && hmField m 59
  | _ => false

/-- Python str.split with no argument: split on whitespace runs, dropping
empty pieces. -/
def pySplitWs (s : String) : List (List Char) :=
  (splitByPred Char.isWhitespace s.toList).filter (fun p => p ≠ [])

/-- ScheduleManager.validate_schedule. -/
def validate_schedule (schedule_time schedule_type : String) : Bool :=
  if schedule_type = "cron" then
    decide ((pySplitWs schedule_time).length ≥ 5)
  else if schedule_type = "daily" || schedule_type = "weekly"
      || schedule_type = "monthly" then
    strptime_HM schedule_time
  else false

/-- One entry of schedules.json. -/
structure ScheduleEntry where
  id : String
  user_id : String
  schedule_time : String
  schedule_type : String
  config : RunConfig
  enabled : Bool
  last_run : Option String
  created_at : String
deriving DecidableEq

/-- The ScheduleManager state: the in-memory list plus the persisted file
contents (save_schedules rewrites the file from the list wholesale). -/
structure SchedStore where
  schedules : List ScheduleEntry
  savedFile : List ScheduleEntry
deriving DecidableEq

/-- ScheduleManager.save_schedules: rewrite the backing file in full. -/
def save_schedules (st : SchedStore) : SchedStore :=
  { st with savedFile := st.schedules }

/-- The effective timer created by ScheduleManager.schedule_job for an entry. -/
inductive ScheduledJob where
  | dailyAt (t : String)
  | mondayAt (t : String)
  | monthApplyError
  | noJob
deriving DecidableEq

/-- ScheduleManager.schedule_job dispatch on schedule_type.  A daily entry is
registered at its own time; weekly falls to Monday; the monthly branch calls
a unit the schedule library does not provide, so the exception handler runs
and nothing is registered; a cron entry is registered as daily at 09:00. -/
def schedule_job (e : ScheduleEntry) : ScheduledJob :=
  if e.schedule_type = "daily" then ScheduledJob.dailyAt e.schedule_time
  else if e.schedule_type = "weekly" then ScheduledJob.mondayAt e.schedule_time
  else if e.schedule_type = "monthly" then ScheduledJob.monthApplyError
  else if e.schedule_type = "cron" then ScheduledJob.dailyAt "09:00"
  else ScheduledJob.noJob

/-- ScheduleManager.add_schedule.  nowMs is the millisecond clock value used
for the generated id, nowIso the created_at stamp.  On validation failure it
returns False with nothing mutated and nothing scheduled; on success the
entry is appended, the file rewritten, and the job applied. -/
def add_schedule (st : SchedStore) (nowMs : Nat) (nowIso : String)
    (user_id schedule_time schedule_type : String) (config : RunConfig) :
    Bool × SchedStore × Option ScheduledJob :=
  if validate_schedule schedule_time schedule_type = false then (false, st, none)
  else
    let entry : ScheduleEntry :=
      { id := toString nowMs, user_id := user_id, schedule_time := schedule_time,
        schedule_type := schedule_type, config := config, enabled := true,
        last_run := none, created_at := nowIso }
    (true, save_schedules { st with schedules := st.schedules ++ [entry] },
      some (schedule_job entry))

/-- The acquire step at the top of ScheduleManager._run_scheduled_task: if the
subject is already registered the task is skipped, otherwise it is added to
the running set. -/
def tryAcquire (running : List String) (s : String) : Bool × List String :=
  if s ∈ running then (false, running) else (true, s :: running)

/-- The release step in the finally block of _run_scheduled_task
(set.discard). -/
def release (running : List String) (s : String) : List String :=
  running.erase s

/-- ScheduleManager._run_scheduled_task: skip when the subject is already
running; otherwise acquire, run the body (which stamps last_run and saves
when it does not raise), and release in the finally block either way.
Returns (ran, running set after, schedules after). -/
def run_scheduled_task (running : List String) (schedules : List ScheduleEntry)
    (e : ScheduleEntry) (bodyOk : Bool) (nowIso : String) :
    Bool × List String × List ScheduleEntry :=
  if e.user_id ∈ running then (false, running, schedules)
  else
    let running1 := e.user_id :: running
    let schedules1 :=
      if bodyOk then
        schedules.map (fun x => if x.id == e.id then { x with last_run := some nowIso } else x)
      else schedules
    (true, running1.erase e.user_id, schedules1)

/- ===================== statistics_manager.py ===================== -/

/-- One row of the crawl_sessions table.  Timestamps are epoch seconds;
duration and efficiency are the REAL columns. -/
structure CrawlSession where
  id : Nat
  user_id : String
  start_time : Int
  end_time : Option Int
  status : String
  total_weibos : Int
  image_count : Int
  video_count : Int
  comment_count : Int
  repost_count : Int
  duration : Rat
  efficiency : Rat
  config_snapshot : String
deriving DecidableEq

/-- One row of the daily_stats table. -/
structure DailyStat where
  date : Int
  total_sessions : Int
  successful_sessions : Int
  total_weibos : Int
  total_images : Int
  total_videos : Int
  total_duration : Rat
  avg_efficiency : Rat
deriving DecidableEq

/-- One row of the user_stats table. -/
structure UserStat where
  user_id : String
  crawled_times : Int
  last_crawl : Option Int
  total_weibos : Int
  avg_efficiency : Rat
  success_rate : Rat
  favorite_config : Option String
deriving DecidableEq

/-- One row of the performance_metrics table. -/
structure PerfMetric where
  timestamp : Int
  memory_usage : Option Rat
  network_speed : Option Rat
  cpu_usage : Option Rat
  error_count : Int
  retry_count : Int
deriving DecidableEq

/-- The whole statistics database; nextId models the AUTOINCREMENT counter
of crawl_sessions. -/
structure StatsDB where
  sessions : List CrawlSession
  daily : List DailyStat
  users : List UserStat
  perf : List PerfMetric
  nextId : Nat
deriving DecidableEq

def emptyStatsDB : StatsDB :=
  { sessions := [], daily := [], users := [], perf := [], nextId := 1 }

/-- SQLite DATE() applied to an epoch-second timestamp: the calendar date,
represented as a day number (timestamps in this development are
nonnegative). -/
def dateOf (t : Int) : Int := t / 86400

/-- StatisticsManager.start_crawl_session: insert a running row with the
column defaults and return its id. -/
def start_crawl_session (db : StatsDB) (user_id : String) (config : String)
    (now : Int) : Nat × StatsDB :=
  let s : CrawlSession :=
    { id := db.nextId, user_id := user_id, start_time := now, end_time := none,
      status := "running", total_weibos := 0, image_count := 0, video_count := 0,
      comment_count := 0, repost_count := 0, duration := 0, efficiency := 0,
      config_snapshot := config }
  (db.nextId, { db with sessions := db.sessions ++ [s], nextId := db.nextId + 1 })

/-- StatisticsManager.update_crawl_progress: SET exactly the provided
columns on the row with the given id; when no column is provided no UPDATE
statement is issued at all. -/
def update_crawl_progress (db : StatsDB) (session_id : Nat)
    (weibo_count image_count video_count comment_count repost_count : Option Int) :
    StatsDB :=
  if weibo_count = none ∧ image_count = none ∧ video_count = none ∧
      comment_count = none ∧ repost_count = none then db
  else
    { db with sessions := db.sessions.map (fun s =>
        if s.id == session_id then
          { s with total_weibos := weibo_count.getD s.total_weibos,
                   image_count := image_count.getD s.image_count,
                   video_count := video_count.getD s.video_count,
                   comment_count := comment_count.getD s.comment_count,
                   repost_count := repost_count.getD s.repost_count }
        else s) }

/-- INSERT OR REPLACE on a keyed table: drop any row with the same key and
append the new row. -/
def upsertByKey {A K : Type} [BEq K] (key : A → K) (row : A) (l : List A) : List A :=
  (l.filter (fun d => key d != key row)) ++ [row]

/-- The aggregate SELECT of StatisticsManager.update_daily_stats followed by
the value fix-ups applied in Python (NULL handled by the or-defaults). -/
def dailyRow (sessions : List CrawlSession) (date : Int) : DailyStat :=
  let rows := sessions.filter (fun s => dateOf s.start_time == date && s.status == "completed")
  let cnt : Int := rows.length
  let sumW : Int := (rows.map (fun s => s.total_weibos)).sum
  let sumI : Int := (rows.map (fun s => s.image_count)).sum
  let sumV : Int := (rows.map (fun s => s.video_count)).sum
  let avgD : Rat := if rows.length = 0 then 0 else (rows.map (fun s => s.duration)).sum / (rows.length : Rat)
  let avgDor1 : Rat := if avgD = 0 then 1 else avgD
  { date := date,
    total_sessions := 0,
    successful_sessions := cnt,
    total_weibos := sumW,
    total_images := sumI,
    total_videos := sumV,
    total_duration := avgD,
    avg_efficiency := (sumW : Rat) / max avgDor1 1 * 60 }

/-- StatisticsManager.update_daily_stats: recompute the date row from the
completed sessions of that date and INSERT OR REPLACE it (the
total_sessions column is omitted from the INSERT and takes its default 0). -/
def update_daily_stats (db : StatsDB) (date : Int) : StatsDB :=
  { db with daily := upsertByKey (fun d => d.date) (dailyRow db.sessions date) db.daily }

/-- The aggregate SELECT of StatisticsManager.update_user_stats with the
or-defaults applied (division by a zero row count yields NULL, hence 0). -/
def userRow (sessions : List CrawlSession) (user_id : String) : UserStat :=
  let rows := sessions.filter (fun s => s.user_id == user_id)
  let cnt : Int := rows.length
  let lastCrawl : Option Int :=
    (rows.filterMap (fun s => s.end_time)).foldl
      (fun acc t => match acc with
        | none => some t
        | some a => some (max a t)) none
  let sumW : Int := (rows.map (fun s => s.total_weibos)).sum
  let avgEff : Rat := if rows.length = 0 then 0 else (rows.map (fun s => s.efficiency)).sum / (rows.length : Rat)
  let completed : Int := (rows.filter (fun s => s.status == "completed")).length
  let successRate : Rat := if rows.length = 0 then 0 else (completed : Rat) / (cnt : Rat)
  { user_id := user_id,
    crawled_times := cnt,
    last_crawl := lastCrawl,
    total_weibos := sumW,
    avg_efficiency := avgEff,
    success_rate := successRate,
    favorite_config := none }

/-- StatisticsManager.update_user_stats: recompute the subject row from all
of its sessions and INSERT OR REPLACE it (favorite_config omitted, default
NULL). -/
def update_user_stats (db : StatsDB) (user_id : String) : StatsDB :=
  { db with users := upsertByKey (fun u => u.user_id) (userRow db.sessions user_id) db.users }

/-- StatisticsManager.end_crawl_session: fetch start_time and total_weibos
of the row (no check of its current status), recompute end_time, status,
duration and efficiency unconditionally, then trigger the daily and
per-subject rollups. -/
def end_crawl_session (db : StatsDB) (session_id : Nat) (status : String)
    (now : Int) : StatsDB :=
  match db.sessions.find? (fun s => s.id == session_id) with
  | none => db
  | some s =>
    let duration : Rat := ((now - s.start_time : Int) : Rat)
    let efficiency : Rat := (s.total_weibos : Rat) / max duration 1 * 60
    let db1 := { db with sessions := db.sessions.map (fun r =>
        if r.id == session_id then
          { r with end_time := some now, status := status,
                   duration := duration, efficiency := efficiency }
        else r) }
    let db2 := update_daily_stats db1 (dateOf now)
    update_user_stats db2 s.user_id

/-- StatisticsManager.cleanup_old_data.  Sessions older than the days
threshold and performance samples older than 7 days are deleted.  The
reported count, however, reads cursor.rowcount only after the last executed
statement, which is the performance-metrics DELETE; the session deletions
are therefore never counted, and the repeated performance DELETE that
follows removes 0 further rows. -/
def cleanup_old_data (db : StatsDB) (now : Int) (days : Nat) : StatsDB × Nat :=
  let cutoff : Int := now - (days : Int) * 86400
  let perf_cutoff : Int := now - 7 * 86400
  let keptSessions := db.sessions.filter (fun s => !(decide (s.start_time < cutoff)))
  let deletedPerfCount := (db.perf.filter (fun p => decide (p.timestamp < perf_cutoff))).length
  let keptPerf := db.perf.filter (fun p => !(decide (p.timestamp < perf_cutoff)))
  let deleted_sessions := deletedPerfCount
  let deleted_metrics := 0
  ({ db with sessions := keptSessions, perf := keptPerf },
    deleted_sessions + deleted_metrics)

/- ===================== theorems: scheduler side ===================== -/

/-- C6: check_auto_start returns the stored run_config exactly when the
record exists, auto_start_enabled is true and the last run is absent or at
least one hour in the past; it returns none when the record is absent, when
auto start is disabled, or when the last run is under an hour old. -/
theorem check_auto_start_correct (s : SessionData) (now : Int) :
    (check_auto_start (some s) now = some s.config
        ↔ s.auto_start_enabled = true
          ∧ (s.last_run = none ∨ ∃ lr, s.last_run = some lr ∧ 3600 ≤ now - lr))
    ∧ check_auto_start none now = none := by
  refine ⟨?_, rfl⟩
  unfold check_auto_start
  cases hA : s.auto_start_enabled with
  | false => simp [hA]
  | true =>
    cases hL : s.last_run with
    | none => simp [hA, hL]
    | some lr =>
      simp only [hA, hL]
      by_cases hlt : now - lr < 3600
      · simp [hlt]
      · simp [hlt]
        omega

/-- The result of adding a well-formed cron entry to an empty store. -/
def cronAddResult : Bool × SchedStore × Option ScheduledJob :=
  add_schedule ⟨[], []⟩ 1700000000001 "2023-11-14T22:13:20" "123456789"
    "* * * * *" "cron" []

/-- C1: contrary to the claim, add with recurrence cron and a five-field
cron expression succeeds: the entry is appended to the store and persisted,
and the job is registered as a daily job at 09:00 rather than rejected. -/
theorem cron_schedule_accepted_and_downgraded :
    cronAddResult.1 = true
    ∧ cronAddResult.2.1.schedules.map (fun e => (e.schedule_type, e.schedule_time))
        = [("cron", "* * * * *")]
    ∧ cronAddResult.2.1.savedFile = cronAddResult.2.1.schedules
    ∧ cronAddResult.2.2 = some (ScheduledJob.dailyAt "09:00") := by
  decide

/-- C7 counterexample: the time string 9:00 without a leading zero is
accepted, the entry is appended and the file rewritten, contradicting the
claim that it is rejected without mutation. -/
theorem time_without_leading_zero_accepted :
    (add_schedule ⟨[], []⟩ 1700000000002 "iso" "123456789" "9:00" "daily" []).1 = true
    ∧ (add_schedule ⟨[], []⟩ 1700000000002 "iso" "123456789" "9:00" "daily" []).2.1.schedules.map
        (fun e => e.schedule_time) = ["9:00"]
    ∧ (add_schedule ⟨[], []⟩ 1700000000002 "iso" "123456789" "9:00" "daily" []).2.1.savedFile.map
        (fun e => e.schedule_time) = ["9:00"] := by
  decide

/-- C7 (amended): every time_of_day failing the lenient strptime HH:MM
parse, such as 25:99 or the empty string, and every unsupported recurrence
value make add fail with the entry list and the backing file exactly as
before; a single-digit hour such as 9:00, however, parses and is accepted. -/
theorem add_invalid_no_mutation (st : SchedStore) (nowMs : Nat)
    (nowIso uid time ty ty2 t2 : String) (cfg : RunConfig)
    (h : validate_schedule time ty = false)
    (h2 : ty2 ∉ (["cron", "daily", "weekly", "monthly"] : List String)) :
    add_schedule st nowMs nowIso uid time ty cfg = (false, st, none)
    ∧ validate_schedule "25:99" "daily" = false
    ∧ validate_schedule "" "daily" = false
    ∧ validate_schedule t2 ty2 = false := by
  refine ⟨?_, by decide, by decide, ?_⟩
  · simp [add_schedule, h]
  · simp only [List.mem_cons, List.not_mem_nil, or_false, not_or] at h2
    obtain ⟨h2c, h2d, h2w, h2m⟩ := h2
    simp [validate_schedule, h2c, h2d, h2w, h2m]

/-- C7 witness: concrete instance of the amended statement. -/
theorem add_invalid_no_mutation_witness :
    add_schedule ⟨[], []⟩ 1700000000003 "iso" "123456789" "25:99" "daily" []
        = (false, ⟨[], []⟩, none)
    ∧ validate_schedule "25:99" "daily" = false
    ∧ validate_schedule "" "daily" = false
    ∧ validate_schedule "10:00" "hourly" = false :=
  add_invalid_no_mutation ⟨[], []⟩ 1700000000003 "iso" "123456789" "25:99"
    "daily" "hourly" "10:00" [] (by decide) (by decide)

/-- C9: two add calls that fall in the same clock millisecond generate the
same id for both entries, so the ids are not pairwise distinct. -/
theorem schedule_id_collision :
    ((add_schedule
        (add_schedule ⟨[], []⟩ 1700000000000 "iso" "123456789" "10:00" "daily" []).2.1
        1700000000000 "iso" "123456790" "11:00" "daily" []).2.1.schedules.map
      (fun e => e.id))
      = ["1700000000000", "1700000000000"] := by
  decide

/-- A concrete schedule entry used to instantiate the guard theorem. -/
def demoEntry : ScheduleEntry :=
  { id := "1", user_id := "100", schedule_time := "10:00", schedule_type := "daily",
    config := [], enabled := true, last_run := none, created_at := "t" }

/-- C5: once a subject is acquired, any further acquire of the same subject
is denied and leaves the registry unchanged, and stays denied for every
registry state holding the subject, until a release makes acquisition
possible again; a distinct subject not currently held is always granted;
and run_scheduled_task releases the subject in its finally block whether
the body succeeds or fails, restoring the registry. -/
theorem guard_mutual_exclusion (running R : List String) (s t : String)
    (e : ScheduleEntry) (sch : List ScheduleEntry) (ok : Bool) (iso : String)
    (hgrant : (tryAcquire running s).1 = true) (hts : t ≠ s) (ht : t ∉ running)
    (hR : s ∈ R) (he : e.user_id = s) :
    tryAcquire (tryAcquire running s).2 s = (false, (tryAcquire running s).2)
    ∧ tryAcquire R s = (false, R)
    ∧ (tryAcquire (release (tryAcquire running s).2 s) s).1 = true
    ∧ (tryAcquire (tryAcquire running s).2 t).1 = true
    ∧ (run_scheduled_task running sch e ok iso).2.1 = running := by
  have hs : s ∉ running := by
    intro hmem
    simp [tryAcquire, hmem] at hgrant
  have hacq : tryAcquire running s = (true, s :: running) := by
    simp [tryAcquire, hs]
  refine ⟨?_, ?_, ?_, ?_, ?_⟩
  · rw [hacq]
    simp [tryAcquire]
  · simp [tryAcquire, hR]
  · rw [hacq]
    simp [tryAcquire, release, hs]
  · rw [hacq]
    have hnotin : ¬ (t = s ∨ t ∈ running) := by
      rintro (h1 | h2)
      · exact hts h1
      · exact ht h2
    simp [tryAcquire, List.mem_cons, hnotin]
  · simp [run_scheduled_task, he, hs, List.erase_cons_head]

/-- C5 witness: the guard properties at a concrete subject, registry and
schedule entry, with the body failing (release still happens). -/
theorem guard_mutual_exclusion_witness :
    tryAcquire (tryAcquire [] "100").2 "100" = (false, (tryAcquire [] "100").2)
    ∧ tryAcquire ["100"] "100" = (false, ["100"])
    ∧ (tryAcquire (release (tryAcquire [] "100").2 "100") "100").1 = true
    ∧ (tryAcquire (tryAcquire [] "100").2 "200").1 = true
    ∧ (run_scheduled_task [] [] demoEntry false "now").2.1 = [] :=
  guard_mutual_exclusion [] ["100"] "100" "200" demoEntry [] false "now"
    (by decide) (by decide) (by decide) (by decide) (by decide)

/- ===================== theorems: statistics side ===================== -/

theorem filter_self_idem {A : Type} (p : A → Bool) (l : List A) :
    (l.filter p).filter p = l.filter p := by
  induction l with
  | nil => rfl
  | cons a l ih => by_cases h : p a <;> simp [List.filter_cons, h, ih]

theorem upsertByKey_idem {A K : Type} [BEq K] [LawfulBEq K] (key : A → K)
    (row : A) (l : List A) :
    upsertByKey key row (upsertByKey key row l) = upsertByKey key row l := by
  unfold upsertByKey
  rw [List.filter_append]
  simp [filter_self_idem, List.filter_cons]

theorem update_daily_stats_sessions (db : StatsDB) (d : Int) :
    (update_daily_stats db d).sessions = db.sessions := rfl

theorem update_user_stats_sessions (db : StatsDB) (u : String) :
    (update_user_stats db u).sessions = db.sessions := rfl

theorem forall2_self {A : Type} (R : A → A → Prop) (l : List A)
    (h : ∀ a, R a a) : List.Forall₂ R l l := by
  induction l with
  | nil => exact List.Forall₂.nil
  | cons a l ih => exact List.Forall₂.cons (h a) ih

theorem forall2_map_self {A : Type} (R : A → A → Prop) (f : A → A) (l : List A)
    (h : ∀ a, R a (f a)) : List.Forall₂ R l (l.map f) := by
  induction l with
  | nil => exact List.Forall₂.nil
  | cons a l ih => exact List.Forall₂.cons (h a) ih

theorem find?_map_update (l : List CrawlSession) (sid : Nat)
    (g : CrawlSession → CrawlSession) (hg : ∀ x, (g x).id = x.id)
    (s : CrawlSession) (h : l.find? (fun r => r.id == sid) = some s) :
    (l.map (fun r => if r.id == sid then g r else r)).find? (fun r => r.id == sid)
      = some (g s) := by
  induction l with
  | nil => simp at h
  | cons a l ih =>
    rw [List.find?_cons] at h
    by_cases ha : (a.id == sid) = true
    · simp only [ha] at h
      have hga : ((g a).id == sid) = true := by rw [hg]; exact ha
      simp only [List.map_cons, ha, if_true, List.find?_cons, hga]
      simp only [Option.some.injEq] at h ⊢
      rw [h]
    · have ha2 : (a.id == sid) = false := by simpa using ha
      simp only [ha2] at h
      have hga : ((g a).id == sid) = false := by rw [hg]; exact ha2
      simp only [List.map_cons, ha2, Bool.false_eq_true, if_false, List.find?_cons, hga]
      exact ih h

/-- C8: both rollup recomputations are idempotent: a second run over the
same sessions replaces the rollup row with the identical row. -/
theorem recompute_idempotent (db : StatsDB) (date : Int) (uid : String) :
    update_daily_stats (update_daily_stats db date) date = update_daily_stats db date
    ∧ update_user_stats (update_user_stats db uid) uid = update_user_stats db uid := by
  constructor
  · simp only [update_daily_stats]
    rw [upsertByKey_idem]
  · simp only [update_user_stats]
    rw [upsertByKey_idem]

/-- C10: update_crawl_progress touches no table but crawl_sessions and no
row but the targeted one; on that row exactly the provided counters change
and every other field is kept; with no counter provided the state is
untouched. -/
theorem update_crawl_progress_frame (db : StatsDB) (sid : Nat)
    (w i v c r : Option Int) :
    (update_crawl_progress db sid w i v c r).daily = db.daily
    ∧ (update_crawl_progress db sid w i v c r).users = db.users
    ∧ (update_crawl_progress db sid w i v c r).perf = db.perf
    ∧ (update_crawl_progress db sid w i v c r).nextId = db.nextId
    ∧ update_crawl_progress db sid none none none none none = db
    ∧ List.Forall₂ (fun s s2 =>
        s2.id = s.id ∧ s2.user_id = s.user_id ∧ s2.start_time = s.start_time
        ∧ s2.end_time = s.end_time ∧ s2.status = s.status
        ∧ s2.duration = s.duration ∧ s2.efficiency = s.efficiency
        ∧ s2.config_snapshot = s.config_snapshot
        ∧ s2.total_weibos = (if s.id = sid then w.getD s.total_weibos else s.total_weibos)
        ∧ s2.image_count = (if s.id = sid then i.getD s.image_count else s.image_count)
        ∧ s2.video_count = (if s.id = sid then v.getD s.video_count else s.video_count)
        ∧ s2.comment_count = (if s.id = sid then c.getD s.comment_count else s.comment_count)
        ∧ s2.repost_count = (if s.id = sid then r.getD s.repost_count else s.repost_count))
      db.sessions (update_crawl_progress db sid w i v c r).sessions := by
  refine ⟨?_, ?_, ?_, ?_, ?_, ?_⟩
  · unfold update_crawl_progress
    split <;> rfl
  · unfold update_crawl_progress
    split <;> rfl
  · unfold update_crawl_progress
    split <;> rfl
  · unfold update_crawl_progress
    split <;> rfl
  · simp [update_crawl_progress]
  · by_cases hall : w = none ∧ i = none ∧ v = none ∧ c = none ∧ r = none
    · obtain ⟨hw, hi, hv, hc, hr⟩ := hall
      subst hw
      subst hi
      subst hv
      subst hc
      subst hr
      simp only [update_crawl_progress, and_self, if_true]
      refine forall2_self _ _ (fun a => ?_)
      refine ⟨rfl, rfl, rfl, rfl, rfl, rfl, rfl, rfl, ?_, ?_, ?_, ?_, ?_⟩ <;>
        by_cases ha : a.id = sid <;> simp [ha]
    · simp only [update_crawl_progress, if_neg hall]
      refine forall2_map_self _ _ _ (fun a => ?_)
      by_cases ha : a.id = sid
      · have hba : (a.id == sid) = true := by simpa using ha
        simp [hba, ha]
      · have hba : (a.id == sid) = false := by simpa using ha
        simp [hba, ha]

/-- A one-session database: session 1 for subject 123456789 started at
instant 0. -/
def dbStarted : StatsDB :=
  (start_crawl_session emptyStatsDB "123456789" "cfg" 0).2

/-- dbStarted after 120 items have been recorded. -/
def dbProgressed : StatsDB :=
  update_crawl_progress dbStarted 1 (some 120) none none none none

/-- dbProgressed finalized as completed at instant 120. -/
def dbFinalized : StatsDB :=
  end_crawl_session dbProgressed 1 "completed" 120

/-- The running session row stored in dbProgressed. -/
def sProg : CrawlSession :=
  { id := 1, user_id := "123456789", start_time := 0, end_time := none,
    status := "running", total_weibos := 120, image_count := 0, video_count := 0,
    comment_count := 0, repost_count := 0, duration := 0, efficiency := 0,
    config_snapshot := "cfg" }

/-- C2 counterexample: after the session is finalized as completed, a later
update_crawl_progress changes its item counter, and a second
end_crawl_session at a later instant overwrites status, duration and
end_time; a finalized session is therefore not immutable. -/
theorem end_session_not_immutable :
    dbFinalized.sessions.map (fun s => (s.status, s.total_weibos, s.duration))
        = [("completed", 120, 120)]
    ∧ (update_crawl_progress dbFinalized 1 (some 999) none none none none).sessions.map
        (fun s => s.total_weibos) = [999]
    ∧ (end_crawl_session dbFinalized 1 "failed" 200).sessions.map
        (fun s => (s.status, s.duration)) = [("failed", 200)] := by
  decide

/-- Shared helper: the row end_crawl_session leaves behind for the session
it targets, for any prior status of that session. -/
theorem end_crawl_session_find (db : StatsDB) (sid : Nat) (st : String)
    (now : Int) (s : CrawlSession)
    (h : db.sessions.find? (fun r => r.id == sid) = some s) :
    (end_crawl_session db sid st now).sessions.find? (fun r => r.id == sid)
      = some { s with
          end_time := some now
          status := st
          duration := ((now - s.start_time : Int) : Rat)
          efficiency := (s.total_weibos : Rat) / max ((now - s.start_time : Int) : Rat) 1 * 60 } := by
  simp only [end_crawl_session, h]
  rw [update_user_stats_sessions, update_daily_stats_sessions]
  exact find?_map_update db.sessions sid
    (fun x => { x with
        end_time := some now
        status := st
        duration := ((now - s.start_time : Int) : Rat)
        efficiency := (s.total_weibos : Rat) / max ((now - s.start_time : Int) : Rat) 1 * 60 })
    (fun x => rfl) s h

/-- C2 (amended): end_crawl_session does not check the current status: for
any stored session, running or already finalized, it unconditionally sets
status to the supplied value and recomputes end_time, duration and
efficiency from the current instant, leaving the remaining fields
unchanged; immutability after finalization is a calling convention, not a
property enforced by the store. -/
theorem end_session_overwrites (db : StatsDB) (sid : Nat) (st : String)
    (now : Int) (s : CrawlSession)
    (h : db.sessions.find? (fun r => r.id == sid) = some s) :
    (end_crawl_session db sid st now).sessions.find? (fun r => r.id == sid)
      = some { s with
          end_time := some now
          status := st
          duration := ((now - s.start_time : Int) : Rat)
          efficiency := (s.total_weibos : Rat) / max ((now - s.start_time : Int) : Rat) 1 * 60 } :=
  end_crawl_session_find db sid st now s h

/-- C2 witness: concrete instance; by the counterexample above the same
operation also rewrites an already-finalized row. -/
theorem end_session_overwrites_witness :
    (end_crawl_session dbProgressed 1 "failed" 200).sessions.find? (fun r => r.id == 1)
      = some { sProg with
          end_time := some 200
          status := "failed"
          duration := ((200 - sProg.start_time : Int) : Rat)
          efficiency := (sProg.total_weibos : Rat) / max ((200 - sProg.start_time : Int) : Rat) 1 * 60 } :=
  end_session_overwrites dbProgressed 1 "failed" 200 sProg (by decide)

/-- C4: the finalization writes duration = now minus start_time in seconds
and efficiency = total_items / max(duration, 1) * 60. -/
theorem end_session_efficiency (db : StatsDB) (sid : Nat) (st : String)
    (now : Int) (s : CrawlSession)
    (h : db.sessions.find? (fun r => r.id == sid) = some s) :
    ((end_crawl_session db sid st now).sessions.find? (fun r => r.id == sid)).map
        (fun x => (x.duration, x.efficiency))
      = some (((now - s.start_time : Int) : Rat),
          (s.total_weibos : Rat) / max ((now - s.start_time : Int) : Rat) 1 * 60) := by
  rw [end_crawl_session_find db sid st now s h]
  rfl

/-- C4 witness: 120 items over a 2-minute run give efficiency exactly 60. -/
theorem end_session_efficiency_witness :
    ((end_crawl_session dbProgressed 1 "completed" 120).sessions.find?
        (fun r => r.id == 1)).map (fun x => (x.duration, x.efficiency))
      = some (120, 60) := by
  have h := end_session_efficiency dbProgressed 1 "completed" 120 sProg (by decide)
  rw [h]
  have h120 : ((120 - sProg.start_time : Int) : Rat) = 120 := by
    norm_num [sProg]
  rw [h120]
  have hmax : max (120 : Rat) 1 = 120 := max_eq_left (by norm_num)
  rw [hmax]
  norm_num [sProg]

/-- Two sessions: one started 400 days before the cleanup instant, one 10
days before; no performance samples are present. -/
def cleanupDemoDB : StatsDB :=
  (start_crawl_session
    (start_crawl_session emptyStatsDB "111111111" "cfg" (100 * 86400)).2
    "222222222" "cfg" (490 * 86400)).2

/-- C3: cleanup at day 500 with the default 365-day threshold deletes
exactly the 400-day-old session and retains the 10-day-old one, but it
returns 0 rather than the 1 record actually deleted, because the reported
count reads cursor.rowcount after the wrong statement. -/
theorem cleanup_deletes_but_returns_wrong_count :
    ((cleanup_old_data cleanupDemoDB (500 * 86400) 365).1.sessions.map (fun s => s.id)) = [2]
    ∧ (cleanup_old_data cleanupDemoDB (500 * 86400) 365).2 = 0
    ∧ cleanupDemoDB.sessions.length = 2 := by
  decide
